import Mathlib

/-!
# Verification of the CSTNET WiFi portal auto-login scripts

Shallow embedding of the two Python variants (`main.py`, the Windows
variant, and `main_mac.py`, the unified/macOS variant) of the
CSTNET_Wifi_Authentication repository.  Effectful operations (Selenium
calls, subprocess output, HTTP probes) are modelled by explicit
environment records supplying the outcome of each call site; Python
exceptions are modelled with `Except`/`Option`, and log output as event
traces.
-/

namespace Portal

/-! ## Connectivity probes (`main_mac.py` lines 148-174)

`has_internet_connectivity` issues an HTTP GET and reports
`status_code < 400`, returning `False` on a `RequestException`.
`has_quick_connectivity` opens a TCP connection to a DNS host.
`is_online`'s body is just `return has_internet_connectivity()`.
The environment records the outcome of each underlying probe. -/

structure NetEnv where
  /-- Outcome of `requests.get(INTERNET_TEST_URL, ...)`: `.ok code` is a
  response with that status code, `.error` is a raised `RequestException`. -/
  httpResult : Except Unit Nat
  /-- Outcome of `socket.create_connection((FAST_DNS_HOST, FAST_DNS_PORT), ...)`:
  `true` iff the TCP connection succeeds (no `OSError`). -/
  tcpOk : Bool

def has_internet_connectivity (e : NetEnv) : Bool :=
  match e.httpResult with
  | .ok code => decide (code < 400)
  | .error _ => false

def has_quick_connectivity (e : NetEnv) : Bool :=
  e.tcpOk

def is_online (e : NetEnv) : Bool :=
  has_internet_connectivity e

/-! ## SSID acquisition (`main.py` lines 53-75, `main_mac.py` lines 88-145)

String helpers model the Python operations used by the parsers as
structural recursions over the string's character data: `str.strip`
(→ `pyStrip`), `str.lower` (→ `pyLower`), `str.startswith`
(→ `pyStarts`), `"x" in s` (→ `pyContains`), and `s.split(":", 1)`
(→ `splitColonOnce`). -/

/-- Python `s.lower()`, character by character on the underlying data
(executable form of `String.toLower`). -/
def pyLower (s : String) : String :=
  ⟨s.data.map Char.toLower⟩

/-- Python `s.strip()` on character lists: drop whitespace from both
ends. -/
def pyStripChars (l : List Char) : List Char :=
  ((l.dropWhile Char.isWhitespace).reverse.dropWhile Char.isWhitespace).reverse

/-- Python `s.strip()`. -/
def pyStrip (s : String) : String :=
  ⟨pyStripChars s.data⟩

/-- Does the character list `s` start with `p`? -/
def charsStart : List Char → List Char → Bool
  | _, [] => true
  | [], _ :: _ => false
  | c :: cs, p :: ps => c == p && charsStart cs ps

/-- Python `s.startswith(p)`. -/
def pyStarts (s p : String) : Bool :=
  charsStart s.data p.data

/-- Does `needle` occur as a contiguous run of `s`? -/
def charsContainSub : List Char → List Char → Bool
  | [], needle => charsStart [] needle
  | s@(_ :: rest), needle => charsStart s needle || charsContainSub rest needle

/-- Python `needle in haystack`. -/
def pyContains (haystack needle : String) : Bool :=
  charsContainSub haystack.data needle.data

/-- Split a character list at its first `':'`. -/
def splitAtColon : List Char → Option (List Char × List Char)
  | [] => none
  | c :: rest =>
    if c = ':' then some ([], rest)
    else
      match splitAtColon rest with
      | some (a, b) => some (c :: a, b)
      | none => none

/-- Python `s.split(":", 1)`: split at the first colon only.  Returns
`none` when the string has no colon (Python: a 1-element list, and the
source's `len(parts) == 2` / `":" in out2` guards fail). -/
def splitColonOnce (s : String) : Option (String × String) :=
  match splitAtColon s.data with
  | some (a, b) => some (⟨a⟩, ⟨b⟩)
  | none => none

/-- The per-line test of the Windows `netsh` parser:
`line.lower().startswith("ssid") and "bssid" not in line.lower()`. -/
def netshLineMatches (line : String) : Bool :=
  pyStarts (pyLower line) "ssid" && !(pyContains (pyLower line) "bssid")

/-- The Windows branch of SSID parsing (`main.py` lines 66-75): scan the
stripped lines of `netsh wlan show interfaces`; on the first matching line
with a colon, return `ssid or None` of the stripped remainder.  A matching
line without a colon is skipped (`len(parts) == 2` fails). -/
def parseNetshSSID : List String → Option String
  | [] => none
  | raw :: rest =>
    if netshLineMatches (pyStrip raw) then
      match splitColonOnce (pyStrip raw) with
      | some (_, tail) =>
        if pyStrip tail = "" then none else some (pyStrip tail)
      | none => parseNetshSSID rest
    else parseNetshSSID rest

/-- The `airport -I` branch of the macOS parser (`main_mac.py` lines
125-130): on the first stripped line whose lowercase form starts with
`"ssid:"`, return `ssid or None`; with no matching line, fall through
(modelled as `none`, the caller then tries `networksetup`). -/
def parseAirportSSID : List String → Option (Option String)
  | [] => none
  | raw :: rest =>
    if pyStarts (pyLower (pyStrip raw)) "ssid:" then
      match splitColonOnce (pyStrip raw) with
      | some (_, tail) =>
        some (if pyStrip tail = "" then none else some (pyStrip tail))
      | none => parseAirportSSID rest
    else parseAirportSSID rest

/-- One `networksetup -getairportnetwork <iface>` attempt (`main_mac.py`
lines 133-139): requires non-empty output containing a colon; accepts the
stripped remainder when non-empty and not `"no network"` (lowercased). -/
def networksetupAccept (out2 : Option String) : Option String :=
  match out2 with
  | none => none
  | some s =>
    if s = "" then none
    else
      match splitColonOnce s with
      | none => none
      | some (_, tail) =>
        if pyStrip tail ≠ "" ∧ pyLower (pyStrip tail) ≠ "no network" then
          some (pyStrip tail)
        else none

/-- Fold of the `for iface in ("en0", "en1", "en2")` loop. -/
def networksetupScan : List (Option String) → Option String
  | [] => none
  | o :: rest =>
    match networksetupAccept o with
    | some s => some s
    | none => networksetupScan rest

/-- Environment for `get_current_ssid` in `main_mac.py`: the lowercased
`platform.system()`, and the output of each external command
(`none` models a failed command, i.e. `_run_cmd` returned `None`). -/
structure SsidEnv where
  system : String
  netshOut : Option (List String)
  airportOut : Option (List String)
  networksetupOuts : List (Option String)

/-- `get_current_ssid` of `main.py` (Windows only): run `netsh`, parse. -/
def get_current_ssid_win (netshOut : Option (List String)) : Option String :=
  match netshOut with
  | none => none
  | some lines => parseNetshSSID lines

/-- `get_current_ssid` of `main_mac.py`: dispatch on the platform;
Windows uses the `netsh` parser, macOS first `airport -I` (whose first
`ssid:` line returns immediately, even when empty → `None`), then the
`networksetup` scan; other systems yield `None`. -/
def get_current_ssid_mac (e : SsidEnv) : Option String :=
  if e.system = "windows" then
    get_current_ssid_win e.netshOut
  else if e.system = "darwin" then
    match e.airportOut with
    | some lines =>
      if lines ≠ [] then
        match parseAirportSSID lines with
        | some r => r
        | none => networksetupScan e.networksetupOuts
      else networksetupScan e.networksetupOuts
    | none => networksetupScan e.networksetupOuts
  else none

/-! ## Verified field filling (`main.py` lines 194-265, `main_mac.py` 287-358)

`fill_field` resolves the real input control near the given XPath, clears
it, tries keystroke input (`send_keys`) and verifies the read-back value;
on mismatch or exception it falls back to a JS value assignment plus
synthetic `input`/`change` events and verifies again.  The verification in
the source is `(current_val or "").strip() == value`.  The control's value
is the state: `send_keys` appends to the current content, `clear` empties
it, the JS path assigns it outright.  Each `try`/`except` around an
interaction is modelled by a flag saying whether that call raised. -/

inductive FillStep where
  | sendKeysAttempt
  | jsAttempt
deriving DecidableEq, Repr

structure FillEnv where
  /-- Value held by the control when it is resolved. -/
  init : String
  /-- The anchor is present and a control is located (via
  `_locate_nearby_input` or the `/label`→`/input` substitution);
  `false` covers the presence timeout and a `None` target. -/
  resolveOk : Bool
  /-- `target.clear()` raised (swallowed: the value is left unchanged). -/
  clearRaises : Bool
  /-- `target.send_keys(value)` raised (caught: fall through to JS). -/
  sendKeysRaises : Bool
  /-- The read-back after `send_keys` raised (caught: fall through to JS). -/
  getAttrKeysRaises : Bool
  /-- The JS `value` assignment + event dispatch raised (caught). -/
  jsRaises : Bool
  /-- The read-back after the JS assignment raised (caught). -/
  getAttrJsRaises : Bool

/-- The JS fallback path of `fill_field`, entered with the control's
current value `v`; returns (result, final control value, attempts). -/
def fillJsPath (e : FillEnv) (value v : String) :
    Bool × String × List FillStep :=
  if e.jsRaises then
    (false, v, [.sendKeysAttempt, .jsAttempt])
  else if e.getAttrJsRaises then
    (false, value, [.sendKeysAttempt, .jsAttempt])
  else if pyStrip value = value then
    (true, value, [.sendKeysAttempt, .jsAttempt])
  else
    (false, value, [.sendKeysAttempt, .jsAttempt])

/-- The control's value after the `target.clear()` attempt: emptied on
success, unchanged when `clear()` raised (the exception is swallowed). -/
def fillCleared (e : FillEnv) : String :=
  if e.clearRaises then e.init else ""

/-- `fill_field`: returns (result, final control value, interaction paths
attempted).  Mirrors the source: locate the control, clear, `send_keys`
(which appends `value` to the control's content) and verify
`strip(read-back) == value`; otherwise the JS path. -/
def fill_field (e : FillEnv) (value : String) :
    Bool × String × List FillStep :=
  if e.resolveOk then
    if e.sendKeysRaises then
      fillJsPath e value (fillCleared e)
    else
      if e.getAttrKeysRaises then
        fillJsPath e value (fillCleared e ++ value)
      else if pyStrip (fillCleared e ++ value) = value then
        (true, fillCleared e ++ value, [.sendKeysAttempt])
      else
        fillJsPath e value (fillCleared e ++ value)
  else
    (false, e.init, [])

/-- Two successive `fill_field` calls with the same value: the second call
starts from the control value the first call left behind. -/
def fillTwice (e : FillEnv) (value : String) :
    (Bool × String × List FillStep) × (Bool × String × List FillStep) :=
  let r1 := fill_field e value
  let r2 := fill_field { e with init := r1.2.1 } value
  (r1, r2)

/-! ## Locator fallback (`main.py` lines 147-191, `main_mac.py` 243-284)

A DOM element is a rose tree of tag names.  An anchor is a node together
with its sibling lists and its parent's tag, enough to interpret the
XPath axes used by `_locate_nearby_input`: `following-sibling::input[1]`,
`preceding-sibling::input[1]`, `..` then `.//input`. -/

inductive Dom where
  | node (tag : String) (children : List Dom)
deriving Repr

def Dom.tag : Dom → String
  | .node t _ => t

def Dom.children : Dom → List Dom
  | .node _ cs => cs

mutual
/-- All nodes of a subtree (the root included), in document order. -/
def subtreeNodes : Dom → List Dom
  | .node t cs => .node t cs :: subtreeNodesList cs

def subtreeNodesList : List Dom → List Dom
  | [] => []
  | d :: ds => subtreeNodes d ++ subtreeNodesList ds
end

/-- An anchor element in its parent context: preceding siblings (in
document order), the element itself, following siblings, and the
parent's tag. -/
structure Anchor where
  parentTag : String
  pre : List Dom
  self : Dom
  post : List Dom

/-- `element.find_elements(By.TAG_NAME, "input")`: the anchor's proper
descendants with tag `input`, in document order. -/
def descendantInputs (d : Dom) : List Dom :=
  (subtreeNodesList d.children).filter (fun n => n.tag = "input")

/-- `following-sibling::input[1]`: the nearest following sibling element
whose tag is `input` (the axis matches sibling elements only). -/
def followingSiblingInput (a : Anchor) : Option Dom :=
  a.post.find? (fun n => n.tag = "input")

/-- `preceding-sibling::input[1]`: the nearest preceding sibling `input`
(the `preceding-sibling` axis counts backwards from the anchor). -/
def precedingSiblingInput (a : Anchor) : Option Dom :=
  a.pre.reverse.find? (fun n => n.tag = "input")

/-- The parent element reached by `find_element(By.XPATH, "..")`. -/
def parentDom (a : Anchor) : Dom :=
  .node a.parentTag (a.pre ++ [a.self] ++ a.post)

/-- `parent.find_elements(By.XPATH, ".//input")`: all proper descendants
of the parent with tag `input`, in document order. -/
def parentSubtreeInputs (a : Anchor) : List Dom :=
  (subtreeNodesList (parentDom a).children).filter (fun n => n.tag = "input")

/-- `_locate_nearby_input`: self if input-capable, else first descendant
`input`, else nearest following-sibling `input`, else nearest
preceding-sibling `input`, else first `input` in the parent's subtree. -/
def locate_nearby_input (a : Anchor) : Option Dom :=
  if pyLower a.self.tag = "input" ∨ pyLower a.self.tag = "textarea" then
    some a.self
  else
    match descendantInputs a.self with
    | x :: _ => some x
    | [] =>
      match followingSiblingInput a with
      | some x => some x
      | none =>
        match precedingSiblingInput a with
        | some x => some x
        | none =>
          match parentSubtreeInputs a with
          | x :: _ => some x
          | [] => none

/-- The label→input substitution tier of `fill_field` (lines 204-212 of
`main.py`): when resolution failed and the XPath ends in `/label`, look
up `xpath[:-6] + "/input"` — the first `input` child of the label's
parent.  `endsLabel` says whether the anchor's XPath ends in `/label`. -/
def labelSubstituteInput (a : Anchor) : Option Dom :=
  ((a.pre ++ [a.self] ++ a.post).filter (fun n => n.tag = "input")).head?

/-- The full resolution used by `fill_field`: `_locate_nearby_input`,
then (if it failed and the XPath ends in `/label`) the substitution. -/
def resolveControl (a : Anchor) (endsLabel : Bool) : Option Dom :=
  match locate_nearby_input a with
  | some x => some x
  | none => if endsLabel then labelSubstituteInput a else none

/-- The search region the claim quantifies over: the anchor itself, its
descendants, its siblings' subtrees — i.e. every proper descendant of the
parent (document order). -/
def anchorRegion (a : Anchor) : List Dom :=
  subtreeNodesList (a.pre ++ [a.self] ++ a.post)

/-- Input-capable: an `input` or `textarea` element. -/
def inputCapable (n : Dom) : Bool :=
  n.tag = "input" || n.tag = "textarea"

/-! ## Hover-to-reveal (`main.py` lines 268-330, `main_mac.py` 361-413)

Wall-clock time is modelled in ticks of 50 ms (the granularity of the
`time.sleep(0.05)` in the macOS variant).  The environment gives, per
XPath and tick, whether `find_element` succeeds, how many ticks the
scroll/hover/event/style actions on that candidate consume, and whether
an element is visible.  After processing a candidate the code waits for
visibility of the *target* XPath (`WebDriverWait(driver, 0.5)` in the
macOS variant — 10 ticks; 1.5 s — 30 ticks — in the Windows one). -/

structure HoverEnv where
  present : String → Nat → Bool
  actTime : String → Nat → Nat
  visible : String → Nat → Bool

/-- `WebDriverWait(...).until(visibility_of(target))` with a budget in
ticks: poll once per tick; returns (found, ticks elapsed). -/
def waitVisible (vis : Nat → Bool) (t : Nat) : Nat → Bool × Nat
  | 0 => (false, 0)
  | b + 1 =>
    if vis t then (true, 0)
    else
      let r := waitVisible vis (t + 1) b
      (r.1, r.2 + 1)

/-- Process one candidate container at time `t`: if `find_element`
succeeds, perform the scroll/hover/JS-event/style actions and then
re-check visibility of the target; a missing candidate is skipped
(`continue`).  Returns (target now visible, ticks consumed). -/
def processCandidate (e : HoverEnv) (target : String) (wait : Nat)
    (xp : String) (t : Nat) : Bool × Nat :=
  if e.present xp t then
    ((waitVisible (e.visible target) (t + e.actTime xp t) wait).1,
      e.actTime xp t +
        (waitVisible (e.visible target) (t + e.actTime xp t) wait).2)
  else
    (false, 0)

/-- One pass over the candidate list, stopping at the first positive
target-visibility check. -/
def passCandidates (e : HoverEnv) (target : String) (wait : Nat) :
    List String → Nat → Bool × Nat
  | [], _ => (false, 0)
  | xp :: rest, t =>
    if (processCandidate e target wait xp t).1 then
      (true, (processCandidate e target wait xp t).2)
    else
      ((passCandidates e target wait rest
          (t + (processCandidate e target wait xp t).2)).1,
        (processCandidate e target wait xp t).2 +
          (passCandidates e target wait rest
            (t + (processCandidate e target wait xp t).2)).2)

/-- Candidate containers of the macOS variant (`main_mac.py` 363-367). -/
def macCandidates (target : String) : List String :=
  [target, "/html/body/div[1]/div[2]/ul", "/html/body/div[1]/div[2]"]

/-- Candidate containers of the Windows variant (`main.py` 273-278). -/
def winCandidates (target : String) : List String :=
  [target, "/html/body/div[1]/div[2]/ul", "/html/body/div[1]/div[2]",
   "/html/body/div[1]"]

/-- The `while time.time() < deadline` loop of the macOS
`hover_to_reveal`: repeat passes until the deadline, sleeping one tick
(0.05 s) between passes.  Returns (revealed, final clock). -/
def hoverLoopMac (e : HoverEnv) (target : String) (deadline t : Nat) :
    Bool × Nat :=
  if t < deadline then
    if (passCandidates e target 10 (macCandidates target) t).1 then
      (true, t + (passCandidates e target 10 (macCandidates target) t).2)
    else
      hoverLoopMac e target deadline
        (t + (passCandidates e target 10 (macCandidates target) t).2 + 1)
  else (false, t)
termination_by deadline - t
decreasing_by omega

/-- `hover_to_reveal` of `main_mac.py`: deadline 0.5 s = 10 ticks. -/
def hover_to_reveal_mac (e : HoverEnv) (target : String) : Bool × Nat :=
  hoverLoopMac e target 10 0

/-- `hover_to_reveal` of `main.py`: a single pass over four candidates
(with a 1.5 s = 30 tick visibility wait after each). -/
def hover_to_reveal_win (e : HoverEnv) (target : String) : Bool × Nat :=
  passCandidates e target 30 (winCandidates target) 0

/-! ## The login orchestration (`main.py` 408-474, `main_mac.py` 491-557)

Events record session lifecycle, log output and the probe/action calls.
The body of the `try` block returns its events together with an optional
uncaught exception; the `finally` clause appends the `driver.quit()`
events in either case. -/

inductive Ev where
  | sessionOpen
  | sessionClosed
  | logNote (s : String)
  | probeForm
  | probeLoggedIn
  | waitForm
  | doLogout
  | openFresh
  | fillField (which : Nat)
  | clickLogin
  | logSubmitted
  | logRecovered
  | readSsid
  | connCheck
  | loginAttempt
  | sleep (secs : Nat)
deriving DecidableEq, Repr

/-- Sequence a possibly-raising call: on a raised exception the
continuation is skipped and the exception propagates. -/
def seqE {α : Type} (r : Except Unit α) (k : α → List Ev × Option Unit) :
    List Ev × Option Unit :=
  match r with
  | .error _ => ([], some ())
  | .ok a => k a

/-- Emit one event in front of a continuation's result. -/
def emit (v : Ev) (rest : List Ev × Option Unit) : List Ev × Option Unit :=
  (v :: rest.1, rest.2)

/-- The post-submit connectivity polling loop (`while time.time() -
start_ts < 10`): the environment lists the probe results the 10-second
window admits; the first `true` logs recovery and breaks, exhaustion
falls out of the loop without any log. -/
def pollEvents : List Bool → List Ev
  | [] => []
  | b :: rest => if b then [.logRecovered] else pollEvents rest

/-- Environment for the Windows `handle_portal_login`: the outcome of
each call site, in source order.  `Except Unit Bool` models a call that
returns a boolean but may also raise an uncaught `WebDriverException`. -/
structure WinEnv where
  haveCreds : Bool
  createOk : Bool
  setTimeout : Except Unit Unit
  navigate : Except Unit Unit
  formPresent : Except Unit Bool
  loggedIn : Except Unit Bool
  logoutA : Except Unit Bool
  freshA : Except Unit Unit
  waitFormA : Except Unit Bool
  logoutB : Except Unit Bool
  freshB : Except Unit Unit
  waitFormB : Except Unit Bool
  fillUser : Except Unit Bool
  fillPass : Except Unit Bool
  clickLogin : Except Unit Bool
  polls : List Bool

/-- The credential fill + submit + poll tail shared by all paths that
reach the login form (`main.py` 449-471). -/
def winFillPhase (e : WinEnv) : List Ev × Option Unit :=
  emit (.fillField 0) <| seqE e.fillUser fun okU =>
  if okU then
    emit (.fillField 1) <| seqE e.fillPass fun okP =>
    if okP then
      emit .clickLogin <| seqE e.clickLogin fun okC =>
      if okC then
        emit .logSubmitted (pollEvents e.polls, none)
      else
        emit (.logNote "click-login-failed") ([], none)
    else
      emit (.logNote "fill-password-failed") ([], none)
  else
    emit (.logNote "fill-username-failed") ([], none)

/-- The fresh-tab / retry-logout recovery shared by the non-form branches
of the Windows variant (`main.py` 439-447). -/
def winRecoverPhase (e : WinEnv) : List Ev × Option Unit :=
  emit .openFresh <| seqE e.freshA fun _ =>
  emit .waitForm <| seqE e.waitFormA fun ok =>
  if ok then winFillPhase e
  else
    emit (.logNote "retry-logout") <|
    emit .doLogout <| seqE e.logoutB fun _ =>
    emit .openFresh <| seqE e.freshB fun _ =>
    emit .waitForm <| seqE e.waitFormB fun ok2 =>
    if ok2 then winFillPhase e
    else emit (.logNote "give-up") ([], none)

/-- Body of the `try` block of the Windows `handle_portal_login`
(`main.py` 423-471): navigate, probe the login form first, otherwise
probe the logged-in state and recover. -/
def winBody (e : WinEnv) : List Ev × Option Unit :=
  seqE e.setTimeout fun _ =>
  emit (.logNote "visit-portal") <| seqE e.navigate fun _ =>
  emit .probeForm <| seqE e.formPresent fun formP =>
  if formP then
    emit (.logNote "form-detected") (winFillPhase e)
  else
    emit .probeLoggedIn <| seqE e.loggedIn fun logged =>
    if logged then
      emit (.logNote "logged-in-logging-out") <|
      emit .doLogout <| seqE e.logoutA fun _ => winRecoverPhase e
    else
      emit (.logNote "neither-state") (winRecoverPhase e)

/-- The Windows `handle_portal_login`: credential check, WebDriver
creation, then the `try` body with `driver.quit()` in `finally`. -/
def handle_portal_login_win (e : WinEnv) : List Ev × Option Unit :=
  if e.haveCreds then
    if e.createOk then
      (.sessionOpen :: (winBody e).1 ++
          [.sessionClosed, .logNote "browser-closed"],
        (winBody e).2)
    else ([.logNote "webdriver-init-failed"], none)
  else ([.logNote "missing-credentials"], none)

/-- Environment for the macOS `handle_portal_login`. -/
structure MacEnv where
  haveCreds : Bool
  createOk : Bool
  setTimeout : Except Unit Unit
  navigate : Except Unit Unit
  loggedIn : Except Unit Bool
  logoutA : Except Unit Bool
  freshA : Except Unit Unit
  waitFormA : Except Unit Bool
  formPresent : Except Unit Bool
  freshB : Except Unit Unit
  waitFormB : Except Unit Bool
  logoutB : Except Unit Bool
  freshC : Except Unit Unit
  waitFormC : Except Unit Bool
  fillUser : Except Unit Bool
  fillPass : Except Unit Bool
  clickLogin : Except Unit Bool
  polls : List Bool

/-- Credential fill + submit + poll tail of the macOS variant
(`main_mac.py` 532-554). -/
def macFillPhase (e : MacEnv) : List Ev × Option Unit :=
  emit (.fillField 0) <| seqE e.fillUser fun okU =>
  if okU then
    emit (.fillField 1) <| seqE e.fillPass fun okP =>
    if okP then
      emit .clickLogin <| seqE e.clickLogin fun okC =>
      if okC then
        emit .logSubmitted (pollEvents e.polls, none)
      else
        emit (.logNote "click-login-failed") ([], none)
    else
      emit (.logNote "fill-password-failed") ([], none)
  else
    emit (.logNote "fill-username-failed") ([], none)

/-- Body of the `try` block of the macOS `handle_portal_login`
(`main_mac.py` 506-554): navigate, probe the logged-in state first;
if logged in, logout then fresh tab; otherwise probe the login form and
recover with fresh tab / one logout-then-reopen cycle. -/
def macBody (e : MacEnv) : List Ev × Option Unit :=
  seqE e.setTimeout fun _ =>
  emit (.logNote "visit-portal") <| seqE e.navigate fun _ =>
  emit .probeLoggedIn <| seqE e.loggedIn fun logged =>
  if logged then
    emit (.logNote "logged-in-logging-out") <|
    emit .doLogout <| seqE e.logoutA fun _ =>
    emit .openFresh <| seqE e.freshA fun _ =>
    emit .waitForm <| seqE e.waitFormA fun ok =>
    if ok then macFillPhase e
    else emit (.logNote "no-form-after-logout") ([], none)
  else
    emit .probeForm <| seqE e.formPresent fun formP =>
    if formP then macFillPhase e
    else
      emit .openFresh <| seqE e.freshB fun _ =>
      emit .waitForm <| seqE e.waitFormB fun ok =>
      if ok then macFillPhase e
      else
        emit .doLogout <| seqE e.logoutB fun _ =>
        emit .openFresh <| seqE e.freshC fun _ =>
        emit .waitForm <| seqE e.waitFormC fun ok2 =>
        if ok2 then macFillPhase e
        else emit (.logNote "give-up") ([], none)

/-- The macOS `handle_portal_login` with `driver.quit()` in `finally`. -/
def handle_portal_login_mac (e : MacEnv) : List Ev × Option Unit :=
  if e.haveCreds then
    if e.createOk then
      (.sessionOpen :: (macBody e).1 ++
          [.sessionClosed, .logNote "browser-closed"],
        (macBody e).2)
    else ([.logNote "webdriver-init-failed"], none)
  else ([.logNote "missing-credentials"], none)

/-! ## The monitor loop (`main.py` 477-497, `main_mac.py` 560-584)

One iteration of each variant's `while True` body.  In `main_mac.py`
line 569 reads `ssid = TARGET_WIFI_SSID#get_current_ssid()` — the SSID
read is commented out and the local is hard-set to the target, so the
actual network identity (`actualSsid`) is never consulted. -/

/-- One iteration of the Windows `main_loop`: read the SSID, compare to
the target, probe connectivity only on a match, attempt login only when
unreachable, then sleep the configured interval. -/
def main_loop_iter_win (target : String) (interval : Nat)
    (ssid : Option String) (online : Bool) : List Ev :=
  .readSsid ::
    (match ssid with
     | some s =>
       if s = target then
         .connCheck ::
           (if online then [.logNote "connectivity-ok"]
            else [.logNote "start-login", .loginAttempt])
       else [.logNote "ssid-skip"]
     | none => [.logNote "ssid-skip"]) ++ [.sleep interval]

/-- One iteration of the macOS `main_loop`: `ssid` is assigned the
target constant (the `get_current_ssid()` call is commented out), so the
branch on the SSID always matches and `actualSsid` is ignored; on a
positive connectivity probe the iteration sleeps and `continue`s. -/
def main_loop_iter_mac (target : String) (interval : Nat)
    (actualSsid : Option String) (online : Bool) : List Ev :=
  let ssid := target
  if ssid = target then
    .connCheck ::
      (if online then [.logNote "connectivity-ok", .sleep interval]
       else [.logNote "start-login", .loginAttempt, .sleep interval])
  else [.logNote "ssid-skip", .sleep interval]

/-! ## Trace accounting -/

def isOpenEv : Ev → Bool
  | .sessionOpen => true
  | _ => false

def isClosedEv : Ev → Bool
  | .sessionClosed => true
  | _ => false

def opens (tr : List Ev) : Nat := tr.countP isOpenEv

def closes (tr : List Ev) : Nat := tr.countP isClosedEv

def isProbeEv : Ev → Bool
  | .probeForm => true
  | .probeLoggedIn => true
  | _ => false

/-- The first of the two quick probes (`is_login_form_present` /
`is_logged_in`) occurring in a trace. -/
def firstProbe (tr : List Ev) : Option Ev :=
  tr.find? isProbeEv

/-- The log events strictly between the submission log and the session
close — what the attempt reports about the polling window's outcome. -/
def logsAfterSubmit (tr : List Ev) : List Ev :=
  ((tr.dropWhile (· ≠ Ev.logSubmitted)).drop 1).takeWhile
    (· ≠ Ev.sessionClosed)

/-! ## Supporting lemmas -/

theorem parseNetshSSID_ne_empty (lines : List String) (s : String)
    (h : parseNetshSSID lines = some s) : s ≠ "" := by
  induction lines with
  | nil => simp [parseNetshSSID] at h
  | cons raw rest ih =>
    rw [parseNetshSSID] at h
    split at h
    · split at h
      · split at h
        · exact absurd h (by simp)
        · rename_i hne
          obtain rfl : _ = s := Option.some_injective _ h
          exact hne
      · exact ih h
    · exact ih h

theorem parseAirportSSID_ne_empty (lines : List String) (r : Option String)
    (s : String) (h : parseAirportSSID lines = some r) (hr : r = some s) :
    s ≠ "" := by
  induction lines with
  | nil => simp [parseAirportSSID] at h
  | cons raw rest ih =>
    rw [parseAirportSSID] at h
    split at h
    · split at h
      · obtain rfl : _ = r := Option.some_injective _ h
        split at hr
        · simp at hr
        · rename_i hne
          obtain rfl : _ = s := Option.some_injective _ hr
          exact hne
      · exact ih h
    · exact ih h

theorem networksetupAccept_ne_empty (o : Option String) (s : String)
    (h : networksetupAccept o = some s) : s ≠ "" := by
  unfold networksetupAccept at h
  split at h
  · simp at h
  · split at h
    · simp at h
    · split at h
      · simp at h
      · split at h
        · rename_i hguard
          obtain rfl : _ = s := Option.some_injective _ h
          exact hguard.1
        · simp at h

theorem networksetupScan_ne_empty (os : List (Option String)) (s : String)
    (h : networksetupScan os = some s) : s ≠ "" := by
  induction os with
  | nil => simp [networksetupScan] at h
  | cons o rest ih =>
    rw [networksetupScan] at h
    split at h
    · rename_i t ht
      obtain rfl : t = s := Option.some_injective _ h
      exact networksetupAccept_ne_empty o _ ht
    · exact ih h

theorem get_current_ssid_win_ne_empty (no : Option (List String))
    (s : String) (h : get_current_ssid_win no = some s) : s ≠ "" := by
  unfold get_current_ssid_win at h
  split at h
  · simp at h
  · exact parseNetshSSID_ne_empty _ _ h

theorem get_current_ssid_mac_ne_empty (e : SsidEnv) (s : String)
    (h : get_current_ssid_mac e = some s) : s ≠ "" := by
  unfold get_current_ssid_mac at h
  split at h
  · exact get_current_ssid_win_ne_empty _ _ h
  · split at h
    · split at h
      · split at h
        · split at h
          · rename_i r hr
            exact parseAirportSSID_ne_empty _ _ _ hr h
          · exact networksetupScan_ne_empty _ _ h
        · exact networksetupScan_ne_empty _ _ h
      · exact networksetupScan_ne_empty _ _ h
    · simp at h

/-- Happy path of `fill_field`: when the control resolves and the
clear/keystroke/read-back interactions do not raise, a value that equals
its own strip is written by the keystroke path and verified. -/
theorem fill_field_happy (e : FillEnv) (value : String)
    (h1 : e.resolveOk = true) (h2 : e.clearRaises = false)
    (h3 : e.sendKeysRaises = false) (h4 : e.getAttrKeysRaises = false)
    (h5 : pyStrip value = value) :
    fill_field e value = (true, value, [.sendKeysAttempt]) := by
  have hc : fillCleared e = "" := by simp [fillCleared, h2]
  simp only [fill_field, h1, h2, h3, h4, hc, if_true, if_false,
    Bool.false_eq_true, ite_false, ite_true]
  have hnil : "" ++ value = value := rfl
  rw [hnil, if_pos h5]

end Portal

/-! ## Claims -/

/-- C9: In `main_mac.py`, the combined online check `is_online` is
extensionally equal to the HTTP-only probe `has_internet_connectivity`:
it depends only on the HTTP probe's outcome (the quick TCP probe is
never consulted), and the quick probe does not coincide with it. -/
theorem c9_is_online_is_http_only :
    (∀ e : Portal.NetEnv,
       Portal.is_online e = Portal.has_internet_connectivity e) ∧
    (∀ e₁ e₂ : Portal.NetEnv, e₁.httpResult = e₂.httpResult →
       Portal.is_online e₁ = Portal.is_online e₂) ∧
    (∃ e : Portal.NetEnv,
       Portal.has_quick_connectivity e ≠ Portal.is_online e) := by
  refine ⟨fun e => rfl, fun e₁ e₂ h => ?_, ⟨⟨Except.error (), true⟩, by decide⟩⟩
  simp [Portal.is_online, Portal.has_internet_connectivity, h]

/-- C9 witness: the dependence-on-HTTP-only conjunct applied to two
concrete environments differing only in the TCP probe. -/
theorem c9_witness :
    Portal.is_online ⟨Except.ok 200, true⟩ =
      Portal.is_online ⟨Except.ok 200, false⟩ :=
  c9_is_online_is_http_only.2.1 ⟨Except.ok 200, true⟩ ⟨Except.ok 200, false⟩ rfl

/-- C10: `get_current_ssid` never returns the empty string — in both
variants, every non-`None` result is a non-empty string (an empty parsed
SSID is turned into `None` by `return ssid or None` and by the
`if ssid` guards). -/
theorem c10_ssid_never_empty :
    (∀ (no : Option (List String)) (s : String),
       Portal.get_current_ssid_win no = some s → s ≠ "") ∧
    (∀ (e : Portal.SsidEnv) (s : String),
       Portal.get_current_ssid_mac e = some s → s ≠ "") :=
  ⟨Portal.get_current_ssid_win_ne_empty, Portal.get_current_ssid_mac_ne_empty⟩

/-- C10 witness: a concrete `netsh` output parses to a (non-empty) SSID
and the theorem applies to it. -/
theorem c10_witness :
    Portal.get_current_ssid_win (some ["    SSID                   : eduroam"]) =
        some "eduroam" ∧
    "eduroam" ≠ "" := by
  refine ⟨by decide, c10_ssid_never_empty.1
    (some ["    SSID                   : eduroam"]) "eduroam" (by decide)⟩

/-- C2: the claim says both variants read the current SSID each
iteration and skip orchestration when it differs from the target.  The
macOS variant hard-codes `ssid = TARGET_WIFI_SSID` (the
`get_current_ssid()` call at line 569 is commented out): at the failing
input — actual network `"OtherNet"`, target `"CSTNET"`, connectivity
down — the iteration performs the login attempt, never reads the SSID,
and behaves identically for every actual SSID; the Windows variant does
skip on a mismatching SSID. -/
theorem c2_mac_loop_ignores_ssid :
    Portal.main_loop_iter_mac "CSTNET" 1 (some "OtherNet") false =
      [.connCheck, .logNote "start-login", .loginAttempt, .sleep 1] ∧
    Portal.Ev.loginAttempt ∈
      Portal.main_loop_iter_mac "CSTNET" 1 (some "OtherNet") false ∧
    Portal.Ev.readSsid ∉
      Portal.main_loop_iter_mac "CSTNET" 1 (some "OtherNet") false ∧
    (∀ actual₁ actual₂ : Option String,
       Portal.main_loop_iter_mac "CSTNET" 1 actual₁ false =
         Portal.main_loop_iter_mac "CSTNET" 1 actual₂ false) ∧
    (∀ (interval : Nat) (online : Bool),
       Portal.Ev.loginAttempt ∉
         Portal.main_loop_iter_win "CSTNET" interval (some "OtherNet") online) := by
  refine ⟨by decide, by decide, by decide, fun a₁ a₂ => rfl,
    fun interval online => ?_⟩
  simp [Portal.main_loop_iter_win]

/-- Case analysis over all interaction outcomes: whenever `fill_field`
returns true, the stripped final control value is the requested value. -/
theorem fill_field_true_strip (e : Portal.FillEnv) (value : String)
    (r : Bool × String × List Portal.FillStep)
    (hr : Portal.fill_field e value = r) (h : r.1 = true) :
    Portal.pyStrip r.2.1 = value := by
  unfold Portal.fill_field Portal.fillJsPath Portal.fillCleared at hr
  repeat' split at hr
  all_goals subst hr
  all_goals simp_all

/-- Case analysis over all interaction outcomes: whenever `fill_field`
returns false with the control resolved, both the keystroke path and the
JS path were attempted. -/
theorem fill_field_false_both_attempted (e : Portal.FillEnv)
    (value : String) (r : Bool × String × List Portal.FillStep)
    (hres : e.resolveOk = true) (hr : Portal.fill_field e value = r)
    (h : r.1 = false) :
    Portal.FillStep.sendKeysAttempt ∈ r.2.2 ∧
      Portal.FillStep.jsAttempt ∈ r.2.2 := by
  unfold Portal.fill_field Portal.fillJsPath Portal.fillCleared at hr
  repeat' split at hr
  all_goals subst hr
  all_goals simp_all

/-- C5 counterexample: the claim says `fill_field` returns true only when
the read-back value *equals* the requested value; the source compares the
*stripped* read-back (`(current_val or "").strip() == value`).  With the
control initially holding `" "`, a failing `clear()` and a successful
keystroke append, the read-back is `" x"` yet `fill_field` returns true
for the requested value `"x"`. -/
theorem c5_counterexample :
    (Portal.fill_field ⟨" ", true, true, false, false, false, false⟩ "x").1
      = true ∧
    (Portal.fill_field ⟨" ", true, true, false, false, false, false⟩ "x").2.1
      ≠ "x" := by
  constructor
  · rfl
  · decide

/-- C5 (amended): `fill_field` returns true only when the *stripped*
read-back value equals the requested value; and with the control
resolved it returns false only after both interaction paths (keystroke
input, then JS assignment with synthetic events) have been attempted. -/
theorem c5_fill_verified :
    (∀ (e : Portal.FillEnv) (value : String),
       (Portal.fill_field e value).1 = true →
       Portal.pyStrip (Portal.fill_field e value).2.1 = value) ∧
    (∀ (e : Portal.FillEnv) (value : String), e.resolveOk = true →
       (Portal.fill_field e value).1 = false →
       Portal.FillStep.sendKeysAttempt ∈ (Portal.fill_field e value).2.2 ∧
       Portal.FillStep.jsAttempt ∈ (Portal.fill_field e value).2.2) :=
  ⟨fun e value h => fill_field_true_strip e value _ rfl h,
   fun e value hres h =>
     fill_field_false_both_attempted e value _ hres rfl h⟩

/-- C5 witness: the amended theorem applied to concrete runs — a
successful keystroke fill of `"abc"`, and a failing fill (JS read-back
raising) that attempted both paths. -/
theorem c5_witness :
    Portal.pyStrip
        (Portal.fill_field ⟨"", true, false, false, false, false, false⟩
          "abc").2.1 = "abc" ∧
    Portal.FillStep.jsAttempt ∈
      (Portal.fill_field ⟨"", true, false, false, true, true, false⟩
        "abc").2.2 :=
  ⟨c5_fill_verified.1 ⟨"", true, false, false, false, false, false⟩ "abc"
      (by decide),
   (c5_fill_verified.2 ⟨"", true, false, false, true, true, false⟩ "abc"
      (by decide) (by decide)).2⟩

/-- C6 counterexample: the claim says `fill_field` twice with the same
value returns true both times for *every* value; because verification
compares the stripped read-back, a value with leading whitespace
(`" x"`) fails verification on both paths even when every interaction
succeeds, so already the first call returns false. -/
theorem c6_counterexample :
    (Portal.fillTwice ⟨"", true, false, false, false, false, false⟩ " x").1.1
      = false ∧
    (Portal.fillTwice ⟨"", true, false, false, false, false, false⟩ " x").2.1
      = false := by
  constructor <;> rfl

/-- C6 (amended): for every resolvable control and every value equal to
its own strip, when the clear/keystroke/read-back interactions do not
raise, calling `fill_field` twice in succession with that value returns
true on both calls and leaves the control's value equal to it. -/
theorem c6_fill_idempotent (e : Portal.FillEnv) (value : String)
    (h1 : e.resolveOk = true) (h2 : e.clearRaises = false)
    (h3 : e.sendKeysRaises = false) (h4 : e.getAttrKeysRaises = false)
    (h5 : Portal.pyStrip value = value) :
    (Portal.fillTwice e value).1.1 = true ∧
    (Portal.fillTwice e value).1.2.1 = value ∧
    (Portal.fillTwice e value).2.1 = true ∧
    (Portal.fillTwice e value).2.2.1 = value := by
  have ha := Portal.fill_field_happy e value h1 h2 h3 h4 h5
  have hb := Portal.fill_field_happy { e with init := value } value h1 h2 h3 h4 h5
  simp [Portal.fillTwice, ha, hb]

/-- C6 witness: the amended idempotence applied to a concrete control
and the value `"abc"`. -/
theorem c6_witness :
    (Portal.fillTwice ⟨"", true, false, false, false, false, false⟩ "abc").1.1
        = true ∧
    (Portal.fillTwice ⟨"", true, false, false, false, false, false⟩
        "abc").2.2.1 = "abc" :=
  ⟨(c6_fill_idempotent ⟨"", true, false, false, false, false, false⟩ "abc"
      rfl rfl rfl rfl (by decide)).1,
   (c6_fill_idempotent ⟨"", true, false, false, false, false, false⟩ "abc"
      rfl rfl rfl rfl (by decide)).2.2.2⟩

theorem subtreeNodesList_append (l1 l2 : List Portal.Dom) :
    Portal.subtreeNodesList (l1 ++ l2) =
      Portal.subtreeNodesList l1 ++ Portal.subtreeNodesList l2 := by
  induction l1 with
  | nil => rfl
  | cons d ds ih => simp [Portal.subtreeNodesList, ih]

theorem self_mem_subtreeNodes (d : Portal.Dom) :
    d ∈ Portal.subtreeNodes d := by
  cases d with
  | node t cs => simp [Portal.subtreeNodes]

theorem mem_subtreeNodesList_of_mem (l : List Portal.Dom)
    (d x : Portal.Dom) (hd : d ∈ l) (hx : x ∈ Portal.subtreeNodes d) :
    x ∈ Portal.subtreeNodesList l := by
  induction l with
  | nil => cases hd
  | cons a as ih =>
    rcases List.mem_cons.mp hd with rfl | h
    · rw [Portal.subtreeNodesList]
      exact List.mem_append.mpr (Or.inl hx)
    · rw [Portal.subtreeNodesList]
      exact List.mem_append.mpr (Or.inr (ih h))

theorem mem_subtreeNodes_of_mem_children (d x : Portal.Dom)
    (h : x ∈ Portal.subtreeNodesList d.children) :
    x ∈ Portal.subtreeNodes d := by
  cases d with
  | node t cs =>
    rw [Portal.subtreeNodes]
    exact List.mem_cons.mpr (Or.inr h)

theorem anchorRegion_eq (a : Portal.Anchor) :
    Portal.anchorRegion a =
      Portal.subtreeNodesList a.pre ++ Portal.subtreeNodes a.self ++
        Portal.subtreeNodesList a.post := by
  show Portal.subtreeNodesList (a.pre ++ [a.self] ++ a.post) = _
  rw [subtreeNodesList_append, subtreeNodesList_append]
  rw [Portal.subtreeNodesList, Portal.subtreeNodesList]
  simp

theorem self_mem_anchorRegion (a : Portal.Anchor) :
    a.self ∈ Portal.anchorRegion a := by
  rw [anchorRegion_eq]
  exact List.mem_append.mpr
    (Or.inl (List.mem_append.mpr (Or.inr (self_mem_subtreeNodes a.self))))

theorem unique_capable_eq (a : Portal.Anchor) (u x : Portal.Dom)
    (huniq : (Portal.anchorRegion a).filter Portal.inputCapable = [u])
    (hx : x ∈ Portal.anchorRegion a)
    (hc : Portal.inputCapable x = true) : x = u := by
  have hmem : x ∈ (Portal.anchorRegion a).filter Portal.inputCapable :=
    List.mem_filter.mpr ⟨hx, hc⟩
  rw [huniq] at hmem
  simpa using hmem

theorem unique_capable_mem (a : Portal.Anchor) (u : Portal.Dom)
    (huniq : (Portal.anchorRegion a).filter Portal.inputCapable = [u]) :
    u ∈ Portal.anchorRegion a ∧ Portal.inputCapable u = true := by
  have hmem : u ∈ (Portal.anchorRegion a).filter Portal.inputCapable := by
    rw [huniq]; simp
  exact List.mem_filter.mp hmem

/-- Whenever the anchor's region holds exactly one input-capable element
and that element is the anchor itself or an `input`, the tiered
resolution of `_locate_nearby_input` finds it. -/
theorem locate_nearby_input_unique (a : Portal.Anchor) (u : Portal.Dom)
    (hcanon : ∀ x ∈ Portal.anchorRegion a, Portal.pyLower x.tag = x.tag)
    (huniq : (Portal.anchorRegion a).filter Portal.inputCapable = [u])
    (hkind : u = a.self ∨ u.tag = "input") :
    Portal.locate_nearby_input a = some u := by
  obtain ⟨humem, hucap⟩ := unique_capable_mem a u huniq
  have hcs : Portal.pyLower a.self.tag = a.self.tag :=
    hcanon a.self (self_mem_anchorRegion a)
  unfold Portal.locate_nearby_input
  by_cases hself : Portal.pyLower a.self.tag = "input" ∨
      Portal.pyLower a.self.tag = "textarea"
  · rw [if_pos hself]
    have hcap : Portal.inputCapable a.self = true := by
      unfold Portal.inputCapable
      rcases hself with h | h <;> rw [hcs] at h <;> simp [h]
    exact congrArg some (unique_capable_eq a u a.self huniq
      (self_mem_anchorRegion a) hcap)
  · rw [if_neg hself]
    have hutag : u.tag = "input" := by
      rcases hkind with rfl | htag
      · exfalso
        apply hself
        rw [hcs]
        unfold Portal.inputCapable at hucap
        rcases Bool.or_eq_true_iff.mp hucap with h | h
        · exact Or.inl (by simpa using h)
        · exact Or.inr (by simpa using h)
      · exact htag
    cases hdesc : Portal.descendantInputs a.self with
    | cons x xs =>
      have hxmem : x ∈ Portal.descendantInputs a.self := by
        rw [hdesc]; exact List.mem_cons_self x xs
      obtain ⟨hxin, hxtag⟩ := List.mem_filter.mp hxmem
      have hxreg : x ∈ Portal.anchorRegion a := by
        rw [anchorRegion_eq]
        exact List.mem_append.mpr (Or.inl (List.mem_append.mpr
          (Or.inr (mem_subtreeNodes_of_mem_children a.self x hxin))))
      have hxcap : Portal.inputCapable x = true := by
        unfold Portal.inputCapable
        simp_all
      exact congrArg some (unique_capable_eq a u x huniq hxreg hxcap)
    | nil =>
      cases hfs : Portal.followingSiblingInput a with
      | some x =>
        have hxpost : x ∈ a.post := List.mem_of_find?_eq_some hfs
        have hxtag : x.tag = "input" := by
          have := List.find?_some hfs
          simpa using this
        have hxreg : x ∈ Portal.anchorRegion a := by
          rw [anchorRegion_eq]
          exact List.mem_append.mpr (Or.inr
            (mem_subtreeNodesList_of_mem a.post x x hxpost
              (self_mem_subtreeNodes x)))
        have hxcap : Portal.inputCapable x = true := by
          unfold Portal.inputCapable
          simp [hxtag]
        exact congrArg some (unique_capable_eq a u x huniq hxreg hxcap)
      | none =>
        cases hps : Portal.precedingSiblingInput a with
        | some x =>
          have hxpre : x ∈ a.pre := by
            have := List.mem_of_find?_eq_some hps
            exact List.mem_reverse.mp this
          have hxtag : x.tag = "input" := by
            have := List.find?_some hps
            simpa using this
          have hxreg : x ∈ Portal.anchorRegion a := by
            rw [anchorRegion_eq]
            exact List.mem_append.mpr (Or.inl (List.mem_append.mpr
              (Or.inl (mem_subtreeNodesList_of_mem a.pre x x hxpre
                (self_mem_subtreeNodes x)))))
          have hxcap : Portal.inputCapable x = true := by
            unfold Portal.inputCapable
            simp [hxtag]
          exact congrArg some (unique_capable_eq a u x huniq hxreg hxcap)
        | none =>
          have hmemp : u ∈ Portal.parentSubtreeInputs a := by
            show u ∈ (Portal.subtreeNodesList
              (Portal.parentDom a).children).filter _
            refine List.mem_filter.mpr ⟨?_, by simpa using hutag⟩
            exact humem
          cases hpl : Portal.parentSubtreeInputs a with
          | nil => rw [hpl] at hmemp; cases hmemp
          | cons x xs =>
            have hxmem : x ∈ Portal.parentSubtreeInputs a := by
              rw [hpl]; exact List.mem_cons_self x xs
            obtain ⟨hxin, hxtag⟩ := List.mem_filter.mp hxmem
            have hxcap : Portal.inputCapable x = true := by
              unfold Portal.inputCapable
              simp_all
            have hxreg : x ∈ Portal.anchorRegion a := hxin
            exact congrArg some (unique_capable_eq a u x huniq hxreg hxcap)

/-- C7 counterexample: an anchor `div` whose only input-capable relative
is a `textarea` child — the region holds exactly one input-capable
element, yet resolution returns nothing, because every fallback tier
except the self-check searches `input` tags only. -/
theorem c7_counterexample :
    (Portal.anchorRegion
        ⟨"div", [], .node "div" [.node "textarea" []], []⟩).filter
        Portal.inputCapable = [.node "textarea" []] ∧
    Portal.resolveControl
        ⟨"div", [], .node "div" [.node "textarea" []], []⟩ true = none ∧
    Portal.resolveControl
        ⟨"div", [], .node "div" [.node "textarea" []], []⟩ false = none :=
  ⟨rfl, rfl, rfl⟩

/-- C7 (amended): for every anchor with lowercase tags whose
descendant/sibling/parent-subtree region contains exactly one
input-capable element, the resolution (`_locate_nearby_input` plus the
label-substitution tier) returns that element *provided* it is the
anchor itself or an `input`; a unique `textarea` other than the anchor
itself is missed (the counterexample). -/
theorem c7_locator_resolution (a : Portal.Anchor) (u : Portal.Dom)
    (hcanon : ∀ x ∈ Portal.anchorRegion a, Portal.pyLower x.tag = x.tag)
    (huniq : (Portal.anchorRegion a).filter Portal.inputCapable = [u])
    (hkind : u = a.self ∨ u.tag = "input") (endsLabel : Bool) :
    Portal.resolveControl a endsLabel = some u := by
  unfold Portal.resolveControl
  rw [locate_nearby_input_unique a u hcanon huniq hkind]

/-- C7 witness: a `label` anchor with a following-sibling `input` — the
unique input-capable element of its region — resolves to it. -/
theorem c7_witness :
    Portal.resolveControl ⟨"li", [], .node "label" [], [.node "input" []]⟩
      false = some (.node "input" []) :=
  c7_locator_resolution ⟨"li", [], .node "label" [], [.node "input" []]⟩
    (.node "input" []) (by decide) rfl (Or.inr rfl) false

theorem waitVisible_time_le (vis : Nat → Bool) (t b : Nat) :
    (Portal.waitVisible vis t b).2 ≤ b := by
  induction b generalizing t with
  | zero => simp [Portal.waitVisible]
  | succ n ih =>
    rw [Portal.waitVisible]
    split
    · simp
    · simpa using Nat.succ_le_succ (ih (t + 1))

theorem waitVisible_of_invisible (vis : Nat → Bool)
    (hv : ∀ s, vis s = false) (t b : Nat) :
    (Portal.waitVisible vis t b).1 = false := by
  induction b generalizing t with
  | zero => simp [Portal.waitVisible]
  | succ n ih =>
    rw [Portal.waitVisible]
    split
    · simp_all
    · simpa using ih (t + 1)

theorem waitVisible_found (vis : Nat → Bool) (t b : Nat)
    (h : (Portal.waitVisible vis t b).1 = true) : ∃ s, vis s = true := by
  induction b generalizing t with
  | zero => simp [Portal.waitVisible] at h
  | succ n ih =>
    rw [Portal.waitVisible] at h
    split at h
    · exact ⟨t, by assumption⟩
    · exact ih (t + 1) (by simpa using h)

theorem processCandidate_time_le (e : Portal.HoverEnv)
    (target xp : String) (wait t A : Nat)
    (hA : ∀ xp t, e.actTime xp t ≤ A) :
    (Portal.processCandidate e target wait xp t).2 ≤ A + wait := by
  unfold Portal.processCandidate
  split
  · exact Nat.add_le_add (hA xp t)
      (waitVisible_time_le (e.visible target) _ wait)
  · simp

theorem processCandidate_of_invisible (e : Portal.HoverEnv)
    (target xp : String) (wait t : Nat)
    (hv : ∀ s, e.visible target s = false) :
    (Portal.processCandidate e target wait xp t).1 = false := by
  unfold Portal.processCandidate
  split
  · exact waitVisible_of_invisible (e.visible target) hv _ wait
  · rfl

theorem processCandidate_found (e : Portal.HoverEnv)
    (target xp : String) (wait t : Nat)
    (h : (Portal.processCandidate e target wait xp t).1 = true) :
    ∃ s, e.visible target s = true := by
  unfold Portal.processCandidate at h
  split at h
  · exact waitVisible_found _ _ _ h
  · simp at h

theorem passCandidates_time_le (e : Portal.HoverEnv) (target : String)
    (wait A : Nat) (hA : ∀ xp t, e.actTime xp t ≤ A)
    (l : List String) (t : Nat) :
    (Portal.passCandidates e target wait l t).2 ≤ l.length * (A + wait) := by
  induction l generalizing t with
  | nil => simp [Portal.passCandidates]
  | cons xp rest ih =>
    rw [Portal.passCandidates]
    have h1 := processCandidate_time_le e target xp wait t A hA
    split
    · calc (Portal.processCandidate e target wait xp t).2
          ≤ A + wait := h1
        _ ≤ (xp :: rest).length * (A + wait) := by
            simp only [List.length_cons, Nat.succ_mul]
            omega
    · have h2 := ih (t + (Portal.processCandidate e target wait xp t).2)
      simp only [List.length_cons, Nat.succ_mul]
      omega

theorem passCandidates_of_invisible (e : Portal.HoverEnv) (target : String)
    (wait : Nat) (hv : ∀ s, e.visible target s = false)
    (l : List String) (t : Nat) :
    (Portal.passCandidates e target wait l t).1 = false := by
  induction l generalizing t with
  | nil => rfl
  | cons xp rest ih =>
    rw [Portal.passCandidates]
    have h1 := processCandidate_of_invisible e target xp wait t hv
    split
    · simp_all
    · simpa using ih (t + (Portal.processCandidate e target wait xp t).2)

theorem passCandidates_found (e : Portal.HoverEnv) (target : String)
    (wait : Nat) (l : List String) (t : Nat)
    (h : (Portal.passCandidates e target wait l t).1 = true) :
    ∃ s, e.visible target s = true := by
  induction l generalizing t with
  | nil => simp [Portal.passCandidates] at h
  | cons xp rest ih =>
    rw [Portal.passCandidates] at h
    split at h
    · exact processCandidate_found e target xp wait t (by assumption)
    · exact ih _ (by simpa using h)

theorem hoverLoopMac_time_le (e : Portal.HoverEnv) (target : String)
    (A : Nat) (hA : ∀ xp t, e.actTime xp t ≤ A) :
    ∀ (n d t : Nat), d - t ≤ n →
      (Portal.hoverLoopMac e target d t).2 ≤ max t (d + 3 * (A + 10)) := by
  intro n
  induction n with
  | zero =>
    intro d t hn
    rw [Portal.hoverLoopMac]
    have hdt : ¬ t < d := by omega
    rw [if_neg hdt]
    exact Nat.le_max_left _ _
  | succ n ih =>
    intro d t hn
    rw [Portal.hoverLoopMac]
    by_cases hdt : t < d
    · rw [if_pos hdt]
      have hp := passCandidates_time_le e target 10 A hA
        (Portal.macCandidates target) t
      have hlen : (Portal.macCandidates target).length = 3 := rfl
      rw [hlen] at hp
      split
      · simp only
        omega
      · have hrec := ih d
          (t + (Portal.passCandidates e target 10
            (Portal.macCandidates target) t).2 + 1) (by omega)
        omega
    · rw [if_neg hdt]
      exact Nat.le_max_left _ _

theorem hoverLoopMac_of_invisible (e : Portal.HoverEnv) (target : String)
    (hv : ∀ s, e.visible target s = false) :
    ∀ (n d t : Nat), d - t ≤ n →
      (Portal.hoverLoopMac e target d t).1 = false := by
  intro n
  induction n with
  | zero =>
    intro d t hn
    rw [Portal.hoverLoopMac]
    rw [if_neg (by omega : ¬ t < d)]
  | succ n ih =>
    intro d t hn
    rw [Portal.hoverLoopMac]
    by_cases hdt : t < d
    · rw [if_pos hdt]
      have hp := passCandidates_of_invisible e target 10 hv
        (Portal.macCandidates target) t
      split
      · simp_all
      · exact ih d _ (by omega)
    · rw [if_neg hdt]

theorem hoverLoopMac_found (e : Portal.HoverEnv) (target : String) :
    ∀ (n d t : Nat), d - t ≤ n →
      (Portal.hoverLoopMac e target d t).1 = true →
      ∃ s, e.visible target s = true := by
  intro n
  induction n with
  | zero =>
    intro d t hn h
    rw [Portal.hoverLoopMac, if_neg (by omega : ¬ t < d)] at h
    simp at h
  | succ n ih =>
    intro d t hn h
    rw [Portal.hoverLoopMac] at h
    by_cases hdt : t < d
    · rw [if_pos hdt] at h
      split at h
      · exact passCandidates_found e target 10 (Portal.macCandidates target)
          t (by assumption)
      · exact ih d _ (by omega) h
    · rw [if_neg hdt] at h
      simp at h

theorem waitVisible_congr (v1 v2 : Nat → Bool) (hv : ∀ s, v1 s = v2 s) :
    ∀ (b t : Nat), Portal.waitVisible v1 t b = Portal.waitVisible v2 t b := by
  intro b
  induction b with
  | zero => intro t; rfl
  | succ n ih =>
    intro t
    rw [Portal.waitVisible, Portal.waitVisible, hv t, ih (t + 1)]

theorem processCandidate_congr (e₁ e₂ : Portal.HoverEnv) (target : String)
    (hp : ∀ xp t, e₁.present xp t = e₂.present xp t)
    (ha : ∀ xp t, e₁.actTime xp t = e₂.actTime xp t)
    (hv : ∀ t, e₁.visible target t = e₂.visible target t)
    (wait : Nat) (xp : String) (t : Nat) :
    Portal.processCandidate e₁ target wait xp t =
      Portal.processCandidate e₂ target wait xp t := by
  unfold Portal.processCandidate
  rw [hp xp t, ha xp t,
    waitVisible_congr (e₁.visible target) (e₂.visible target) hv]

theorem passCandidates_congr (e₁ e₂ : Portal.HoverEnv) (target : String)
    (hp : ∀ xp t, e₁.present xp t = e₂.present xp t)
    (ha : ∀ xp t, e₁.actTime xp t = e₂.actTime xp t)
    (hv : ∀ t, e₁.visible target t = e₂.visible target t) (wait : Nat) :
    ∀ (l : List String) (t : Nat),
      Portal.passCandidates e₁ target wait l t =
        Portal.passCandidates e₂ target wait l t := by
  intro l
  induction l with
  | nil => intro t; rfl
  | cons xp rest ih =>
    intro t
    rw [Portal.passCandidates, Portal.passCandidates,
      processCandidate_congr e₁ e₂ target hp ha hv wait xp t, ih]

theorem hoverLoopMac_congr (e₁ e₂ : Portal.HoverEnv) (target : String)
    (hp : ∀ xp t, e₁.present xp t = e₂.present xp t)
    (ha : ∀ xp t, e₁.actTime xp t = e₂.actTime xp t)
    (hv : ∀ t, e₁.visible target t = e₂.visible target t) :
    ∀ (n d t : Nat), d - t ≤ n →
      Portal.hoverLoopMac e₁ target d t =
        Portal.hoverLoopMac e₂ target d t := by
  intro n
  induction n with
  | zero =>
    intro d t hn
    rw [Portal.hoverLoopMac]
    conv_rhs => rw [Portal.hoverLoopMac]
    rw [if_neg (by omega : ¬ t < d), if_neg (by omega : ¬ t < d)]
  | succ n ih =>
    intro d t hn
    rw [Portal.hoverLoopMac]
    conv_rhs => rw [Portal.hoverLoopMac]
    by_cases hdt : t < d
    · rw [if_pos hdt, if_pos hdt,
        passCandidates_congr e₁ e₂ target hp ha hv 10
          (Portal.macCandidates target) t]
      split
      · rfl
      · exact ih d _ (by omega)
    · rw [if_neg hdt, if_neg hdt]

theorem hoverMac_immediate (e : Portal.HoverEnv) (target : String)
    (hv : ∀ s, e.visible target s = true)
    (hp : e.present target 0 = true) :
    Portal.hover_to_reveal_mac e target = (true, e.actTime target 0) := by
  have hw : Portal.waitVisible (e.visible target)
      (0 + e.actTime target 0) 10 = (true, 0) := by
    rw [Portal.waitVisible, hv]
    simp
  have hproc : Portal.processCandidate e target 10 target 0 =
      (true, e.actTime target 0) := by
    unfold Portal.processCandidate
    rw [hp, if_pos rfl, hw]
    simp
  have hpass : Portal.passCandidates e target 10
      (Portal.macCandidates target) 0 = (true, e.actTime target 0) := by
    rw [Portal.macCandidates, Portal.passCandidates, hproc]
    simp
  unfold Portal.hover_to_reveal_mac
  rw [Portal.hoverLoopMac, if_pos (by omega : (0:Nat) < 10), hpass]
  simp

/-- C8: `hover_to_reveal` terminates within a bounded wall-clock budget
(final clock at most deadline + one full pass, given a bound `A` on the
per-candidate action time; one bounded pass in the Windows variant) and
returns false rather than hanging when the target never becomes visible;
after each candidate it re-checks visibility of the *target* — a true
result implies some target-visibility check succeeded, constantly
visible targets succeed immediately on the first candidate, and the
result depends only on the target's visibility (candidate visibility is
never consulted). -/
theorem c8_hover_reveal_bounded :
    (∀ (e : Portal.HoverEnv) (target : String) (A : Nat),
       (∀ xp t, e.actTime xp t ≤ A) →
       (Portal.hover_to_reveal_mac e target).2 ≤ 10 + 3 * (A + 10) ∧
       (Portal.hover_to_reveal_win e target).2 ≤ 4 * (A + 30)) ∧
    (∀ (e : Portal.HoverEnv) (target : String),
       (∀ s, e.visible target s = false) →
       (Portal.hover_to_reveal_mac e target).1 = false ∧
       (Portal.hover_to_reveal_win e target).1 = false) ∧
    (∀ (e : Portal.HoverEnv) (target : String),
       ((Portal.hover_to_reveal_mac e target).1 = true →
          ∃ s, e.visible target s = true) ∧
       ((Portal.hover_to_reveal_win e target).1 = true →
          ∃ s, e.visible target s = true)) ∧
    (∀ (e : Portal.HoverEnv) (target : String),
       (∀ s, e.visible target s = true) → e.present target 0 = true →
       Portal.hover_to_reveal_mac e target = (true, e.actTime target 0)) ∧
    (∀ (e₁ e₂ : Portal.HoverEnv) (target : String),
       (∀ xp t, e₁.present xp t = e₂.present xp t) →
       (∀ xp t, e₁.actTime xp t = e₂.actTime xp t) →
       (∀ t, e₁.visible target t = e₂.visible target t) →
       Portal.hover_to_reveal_mac e₁ target =
           Portal.hover_to_reveal_mac e₂ target ∧
       Portal.hover_to_reveal_win e₁ target =
           Portal.hover_to_reveal_win e₂ target) := by
  refine ⟨?_, ?_, ?_, ?_, ?_⟩
  · intro e target A hA
    constructor
    · have := hoverLoopMac_time_le e target A hA 10 10 0 (by omega)
      simpa [Portal.hover_to_reveal_mac] using this
    · have := passCandidates_time_le e target 30 A hA
        (Portal.winCandidates target) 0
      simpa [Portal.hover_to_reveal_win, Portal.winCandidates] using this
  · intro e target hv
    exact ⟨hoverLoopMac_of_invisible e target hv 10 10 0 (by omega),
      passCandidates_of_invisible e target 30 hv
        (Portal.winCandidates target) 0⟩
  · intro e target
    exact ⟨fun h => hoverLoopMac_found e target 10 10 0 (by omega) h,
      fun h => passCandidates_found e target 30
        (Portal.winCandidates target) 0 h⟩
  · intro e target hv hp
    exact hoverMac_immediate e target hv hp
  · intro e₁ e₂ target hp ha hv
    exact ⟨hoverLoopMac_congr e₁ e₂ target hp ha hv 10 10 0 (by omega),
      passCandidates_congr e₁ e₂ target hp ha hv 30
        (Portal.winCandidates target) 0⟩

/-- C8 witness: the budget and never-visible conjuncts applied to a
concrete environment (all candidates present, zero action time, target
never visible). -/
theorem c8_witness :
    (Portal.hover_to_reveal_mac
        ⟨fun _ _ => true, fun _ _ => 0, fun _ _ => false⟩ "t").2
      ≤ 10 + 3 * (0 + 10) ∧
    (Portal.hover_to_reveal_mac
        ⟨fun _ _ => true, fun _ _ => 0, fun _ _ => false⟩ "t").1 = false :=
  ⟨(c8_hover_reveal_bounded.1
      ⟨fun _ _ => true, fun _ _ => 0, fun _ _ => false⟩ "t" 0
      (fun _ _ => Nat.le_refl 0)).1,
   (c8_hover_reveal_bounded.2.1
      ⟨fun _ _ => true, fun _ _ => 0, fun _ _ => false⟩ "t"
      (fun _ => rfl)).1⟩

@[simp] theorem seqE_ok {α : Type} (a : α)
    (k : α → List Portal.Ev × Option Unit) :
    Portal.seqE (Except.ok a) k = k a := rfl

@[simp] theorem seqE_error {α : Type} (u : Unit)
    (k : α → List Portal.Ev × Option Unit) :
    Portal.seqE (Except.error u) k = ([], some ()) := rfl

@[simp] theorem emit_fst (v : Portal.Ev) (r : List Portal.Ev × Option Unit) :
    (Portal.emit v r).1 = v :: r.1 := rfl

theorem pollEvents_cases (polls : List Bool) :
    Portal.pollEvents polls = [] ∨
      Portal.pollEvents polls = [Portal.Ev.logRecovered] := by
  induction polls with
  | nil => exact Or.inl rfl
  | cons b rest ih =>
    rw [Portal.pollEvents]
    split
    · exact Or.inr rfl
    · exact ih

theorem pollEvents_opens (polls : List Bool) :
    Portal.opens (Portal.pollEvents polls) = 0 := by
  rcases pollEvents_cases polls with h | h <;> rw [h] <;> rfl

theorem pollEvents_closes (polls : List Bool) :
    Portal.closes (Portal.pollEvents polls) = 0 := by
  rcases pollEvents_cases polls with h | h <;> rw [h] <;> rfl

@[simp] theorem opens_nil : Portal.opens [] = 0 := rfl

@[simp] theorem closes_nil : Portal.closes [] = 0 := rfl

@[simp] theorem opens_cons (v : Portal.Ev) (l : List Portal.Ev) :
    Portal.opens (v :: l) =
      Portal.opens l + (if Portal.isOpenEv v then 1 else 0) :=
  List.countP_cons Portal.isOpenEv v l

@[simp] theorem closes_cons (v : Portal.Ev) (l : List Portal.Ev) :
    Portal.closes (v :: l) =
      Portal.closes l + (if Portal.isClosedEv v then 1 else 0) :=
  List.countP_cons Portal.isClosedEv v l

@[simp] theorem opens_append (l1 l2 : List Portal.Ev) :
    Portal.opens (l1 ++ l2) = Portal.opens l1 + Portal.opens l2 :=
  List.countP_append Portal.isOpenEv l1 l2

@[simp] theorem closes_append (l1 l2 : List Portal.Ev) :
    Portal.closes (l1 ++ l2) = Portal.closes l1 + Portal.closes l2 :=
  List.countP_append Portal.isClosedEv l1 l2

@[simp] theorem opens_ite (c : Prop) [Decidable c]
    (x y : List Portal.Ev × Option Unit) :
    Portal.opens (if c then x else y).1 =
      if c then Portal.opens x.1 else Portal.opens y.1 := by
  split <;> rfl

@[simp] theorem closes_ite (c : Prop) [Decidable c]
    (x y : List Portal.Ev × Option Unit) :
    Portal.closes (if c then x else y).1 =
      if c then Portal.closes x.1 else Portal.closes y.1 := by
  split <;> rfl

theorem winFillPhase_opens (e : Portal.WinEnv) :
    Portal.opens (Portal.winFillPhase e).1 = 0 := by
  unfold Portal.winFillPhase Portal.seqE Portal.emit
  repeat' split
  all_goals simp_all [Portal.isOpenEv, pollEvents_opens]

theorem winFillPhase_closes (e : Portal.WinEnv) :
    Portal.closes (Portal.winFillPhase e).1 = 0 := by
  unfold Portal.winFillPhase Portal.seqE Portal.emit
  repeat' split
  all_goals simp_all [Portal.isClosedEv, pollEvents_closes]

theorem winRecoverPhase_opens (e : Portal.WinEnv) :
    Portal.opens (Portal.winRecoverPhase e).1 = 0 := by
  unfold Portal.winRecoverPhase Portal.seqE Portal.emit
  repeat' split
  all_goals simp_all [Portal.isOpenEv, winFillPhase_opens]

theorem winRecoverPhase_closes (e : Portal.WinEnv) :
    Portal.closes (Portal.winRecoverPhase e).1 = 0 := by
  unfold Portal.winRecoverPhase Portal.seqE Portal.emit
  repeat' split
  all_goals simp_all [Portal.isClosedEv, winFillPhase_closes]

theorem winBody_sessionFree (e : Portal.WinEnv) :
    Portal.opens (Portal.winBody e).1 = 0 ∧
      Portal.closes (Portal.winBody e).1 = 0 := by
  constructor
  · unfold Portal.winBody Portal.seqE Portal.emit
    repeat' split
    all_goals simp_all [Portal.isOpenEv, winFillPhase_opens,
      winRecoverPhase_opens]
  · unfold Portal.winBody Portal.seqE Portal.emit
    repeat' split
    all_goals simp_all [Portal.isClosedEv, winFillPhase_closes,
      winRecoverPhase_closes]

theorem macFillPhase_opens (e : Portal.MacEnv) :
    Portal.opens (Portal.macFillPhase e).1 = 0 := by
  unfold Portal.macFillPhase Portal.seqE Portal.emit
  repeat' split
  all_goals simp_all [Portal.isOpenEv, pollEvents_opens]

theorem macFillPhase_closes (e : Portal.MacEnv) :
    Portal.closes (Portal.macFillPhase e).1 = 0 := by
  unfold Portal.macFillPhase Portal.seqE Portal.emit
  repeat' split
  all_goals simp_all [Portal.isClosedEv, pollEvents_closes]

theorem macBody_sessionFree (e : Portal.MacEnv) :
    Portal.opens (Portal.macBody e).1 = 0 ∧
      Portal.closes (Portal.macBody e).1 = 0 := by
  constructor
  · unfold Portal.macBody Portal.seqE Portal.emit
    repeat' split
    all_goals simp_all [Portal.isOpenEv, macFillPhase_opens]
  · unfold Portal.macBody Portal.seqE Portal.emit
    repeat' split
    all_goals simp_all [Portal.isClosedEv, macFillPhase_closes]

theorem opens_take_le (l : List Portal.Ev) (n : Nat) :
    Portal.opens (l.take n) ≤ Portal.opens l := by
  induction l generalizing n with
  | nil => simp
  | cons v t ih =>
    cases n with
    | zero => simp [Portal.opens]
    | succ m =>
      simp only [List.take_succ_cons, opens_cons]
      exact Nat.add_le_add_right (ih m) _

theorem closes_take_le (l : List Portal.Ev) (n : Nat) :
    Portal.closes (l.take n) ≤ Portal.closes l := by
  induction l generalizing n with
  | nil => simp
  | cons v t ih =>
    cases n with
    | zero => simp [Portal.closes]
    | succ m =>
      simp only [List.take_succ_cons, closes_cons]
      exact Nat.add_le_add_right (ih m) _

theorem session_wrap_balanced (body : List Portal.Ev)
    (hbo : Portal.opens body = 0) (hbc : Portal.closes body = 0)
    (s : String) :
    Portal.opens (Portal.Ev.sessionOpen :: body ++
        [Portal.Ev.sessionClosed, Portal.Ev.logNote s]) = 1 ∧
    Portal.closes (Portal.Ev.sessionOpen :: body ++
        [Portal.Ev.sessionClosed, Portal.Ev.logNote s]) = 1 ∧
    ∀ n,
      Portal.closes ((Portal.Ev.sessionOpen :: body ++
          [Portal.Ev.sessionClosed, Portal.Ev.logNote s]).take n) ≤
        Portal.opens ((Portal.Ev.sessionOpen :: body ++
          [Portal.Ev.sessionClosed, Portal.Ev.logNote s]).take n) ∧
      Portal.opens ((Portal.Ev.sessionOpen :: body ++
          [Portal.Ev.sessionClosed, Portal.Ev.logNote s]).take n) ≤
        Portal.closes ((Portal.Ev.sessionOpen :: body ++
          [Portal.Ev.sessionClosed, Portal.Ev.logNote s]).take n) + 1 := by
  have h3 : Portal.opens (body ++
      [Portal.Ev.sessionClosed, Portal.Ev.logNote s]) = 0 := by
    simp [hbo, Portal.isOpenEv]
  have h4 : Portal.closes (body ++
      [Portal.Ev.sessionClosed, Portal.Ev.logNote s]) = 1 := by
    simp [hbc, Portal.isClosedEv]
  refine ⟨by simp [h3, Portal.isOpenEv], by simp [h4, Portal.isClosedEv], ?_⟩
  intro n
  cases n with
  | zero => simp [Portal.opens, Portal.closes]
  | succ m =>
    have h1 := opens_take_le
      (body ++ [Portal.Ev.sessionClosed, Portal.Ev.logNote s]) m
    have h2 := closes_take_le
      (body ++ [Portal.Ev.sessionClosed, Portal.Ev.logNote s]) m
    rw [h3] at h1
    rw [h4] at h2
    simp only [List.cons_append, List.take_succ_cons]
    rw [opens_cons, closes_cons]
    simp [Portal.isOpenEv, Portal.isClosedEv]
    omega

theorem session_log_balanced (s : String) :
    Portal.opens [Portal.Ev.logNote s] =
      Portal.closes [Portal.Ev.logNote s] ∧
    ∀ n,
      Portal.closes ([Portal.Ev.logNote s].take n) ≤
        Portal.opens ([Portal.Ev.logNote s].take n) ∧
      Portal.opens ([Portal.Ev.logNote s].take n) ≤
        Portal.closes ([Portal.Ev.logNote s].take n) + 1 := by
  refine ⟨rfl, ?_⟩
  intro n
  cases n with
  | zero => simp [Portal.opens, Portal.closes]
  | succ m =>
    simp [Portal.opens, Portal.closes, Portal.isOpenEv, Portal.isClosedEv]

/-- C1: in both variants `driver.quit()` sits in a `finally` clause, so
whenever a session is successfully created (credentials present,
WebDriver creation succeeded) the trace holds exactly one session-open
balanced by one session-close, whatever the body did — early aborted
step, success, or an exception propagating out of the `try` block — and
every prefix of the trace has between zero and one net open sessions. -/
theorem c1_session_always_closed :
    (∀ e : Portal.WinEnv,
       Portal.opens (Portal.handle_portal_login_win e).1 =
         Portal.closes (Portal.handle_portal_login_win e).1 ∧
       (e.haveCreds = true → e.createOk = true →
          Portal.opens (Portal.handle_portal_login_win e).1 = 1) ∧
       (∀ n,
          Portal.closes ((Portal.handle_portal_login_win e).1.take n) ≤
            Portal.opens ((Portal.handle_portal_login_win e).1.take n) ∧
          Portal.opens ((Portal.handle_portal_login_win e).1.take n) ≤
            Portal.closes ((Portal.handle_portal_login_win e).1.take n) + 1)) ∧
    (∀ e : Portal.MacEnv,
       Portal.opens (Portal.handle_portal_login_mac e).1 =
         Portal.closes (Portal.handle_portal_login_mac e).1 ∧
       (e.haveCreds = true → e.createOk = true →
          Portal.opens (Portal.handle_portal_login_mac e).1 = 1) ∧
       (∀ n,
          Portal.closes ((Portal.handle_portal_login_mac e).1.take n) ≤
            Portal.opens ((Portal.handle_portal_login_mac e).1.take n) ∧
          Portal.opens ((Portal.handle_portal_login_mac e).1.take n) ≤
            Portal.closes ((Portal.handle_portal_login_mac e).1.take n) + 1)) := by
  constructor
  · intro e
    unfold Portal.handle_portal_login_win
    split
    · split
      · obtain ⟨hbo, hbc⟩ := winBody_sessionFree e
        obtain ⟨w1, w2, w3⟩ := session_wrap_balanced (Portal.winBody e).1
          hbo hbc "browser-closed"
        exact ⟨by rw [w1, w2], fun _ _ => w1, w3⟩
      · obtain ⟨l1, l2⟩ := session_log_balanced "webdriver-init-failed"
        exact ⟨l1, fun _ h2 => absurd h2 (by assumption), l2⟩
    · obtain ⟨l1, l2⟩ := session_log_balanced "missing-credentials"
      exact ⟨l1, fun h1 _ => absurd h1 (by assumption), l2⟩
  · intro e
    unfold Portal.handle_portal_login_mac
    split
    · split
      · obtain ⟨hbo, hbc⟩ := macBody_sessionFree e
        obtain ⟨w1, w2, w3⟩ := session_wrap_balanced (Portal.macBody e).1
          hbo hbc "browser-closed"
        exact ⟨by rw [w1, w2], fun _ _ => w1, w3⟩
      · obtain ⟨l1, l2⟩ := session_log_balanced "webdriver-init-failed"
        exact ⟨l1, fun _ h2 => absurd h2 (by assumption), l2⟩
    · obtain ⟨l1, l2⟩ := session_log_balanced "missing-credentials"
      exact ⟨l1, fun h1 _ => absurd h1 (by assumption), l2⟩

/-- C1 witness: a concrete happy-path Windows run opens exactly one
session (and, by the equality conjunct, closes exactly one). -/
theorem c1_witness :
    Portal.opens (Portal.handle_portal_login_win
      ⟨true, true, .ok (), .ok (), .ok true, .ok true, .ok true, .ok (),
        .ok true, .ok true, .ok (), .ok true, .ok true, .ok true, .ok true,
        [true]⟩).1 = 1 :=
  (c1_session_always_closed.1
    ⟨true, true, .ok (), .ok (), .ok true, .ok true, .ok true, .ok (),
      .ok true, .ok true, .ok (), .ok true, .ok true, .ok true, .ok true,
      [true]⟩).2.1 rfl rfl

theorem not_mem_pollEvents (polls : List Bool) (v : Portal.Ev)
    (h : v ≠ Portal.Ev.logRecovered) : v ∉ Portal.pollEvents polls := by
  rcases pollEvents_cases polls with hp | hp <;> rw [hp] <;> simp [h]

@[simp] theorem fst_ite (c : Prop) [Decidable c]
    (x y : List Portal.Ev × Option Unit) :
    (if c then x else y).1 = if c then x.1 else y.1 := by
  split <;> rfl

@[simp] theorem snd_ite (c : Prop) [Decidable c]
    (x y : List Portal.Ev × Option Unit) :
    (if c then x else y).2 = if c then x.2 else y.2 := by
  split <;> rfl

@[simp] theorem mem_ite_list (c : Prop) [Decidable c] (v : Portal.Ev)
    (l1 l2 : List Portal.Ev) :
    (v ∈ if c then l1 else l2) ↔ (if c then v ∈ l1 else v ∈ l2) := by
  split <;> rfl

theorem not_mem_macFillPhase (e : Portal.MacEnv) (v : Portal.Ev)
    (h0 : v ≠ Portal.Ev.fillField 0) (h1 : v ≠ Portal.Ev.fillField 1)
    (h2 : v ≠ Portal.Ev.clickLogin) (h3 : v ≠ Portal.Ev.logSubmitted)
    (h4 : v ≠ Portal.Ev.logRecovered)
    (h5 : ∀ s, v ≠ Portal.Ev.logNote s) :
    v ∉ (Portal.macFillPhase e).1 := by
  have hp := not_mem_pollEvents e.polls v h4
  unfold Portal.macFillPhase Portal.seqE Portal.emit
  repeat' split
  all_goals simp_all

theorem not_mem_winFillPhase (e : Portal.WinEnv) (v : Portal.Ev)
    (h0 : v ≠ Portal.Ev.fillField 0) (h1 : v ≠ Portal.Ev.fillField 1)
    (h2 : v ≠ Portal.Ev.clickLogin) (h3 : v ≠ Portal.Ev.logSubmitted)
    (h4 : v ≠ Portal.Ev.logRecovered)
    (h5 : ∀ s, v ≠ Portal.Ev.logNote s) :
    v ∉ (Portal.winFillPhase e).1 := by
  have hp := not_mem_pollEvents e.polls v h4
  unfold Portal.winFillPhase Portal.seqE Portal.emit
  repeat' split
  all_goals simp_all

/-- C3 counterexample: the claim says both variants probe `isLoggedIn`
first.  In `main.py` the first probe of a run (portal reached) is
`is_login_form_present` — on a concrete happy-path environment the first
probe event in the trace is the form probe, not the logged-in probe. -/
theorem c3_counterexample :
    Portal.firstProbe (Portal.handle_portal_login_win
      ⟨true, true, .ok (), .ok (), .ok true, .ok true, .ok true, .ok (),
        .ok true, .ok true, .ok (), .ok true, .ok true, .ok true, .ok true,
        [true]⟩).1 = some Portal.Ev.probeForm ∧
    some Portal.Ev.probeForm ≠ some Portal.Ev.probeLoggedIn := by
  exact ⟨rfl, by decide⟩

/-- C3 (amended): the macOS variant probes `isLoggedIn` first and probes
`isLoginFormPresent` only when that probe returned false; on a positive
probe it runs logout and (when logout returns) opens a fresh context; on
an absent form it opens a fresh context and, if the form is still
absent, one more logout-then-reopen cycle.  The Windows variant has the
opposite order: it probes `isLoginFormPresent` first and probes
`isLoggedIn` only when the form probe returned false. -/
theorem c3_probe_order :
    (∀ e : Portal.MacEnv, e.setTimeout = Except.ok () →
       e.navigate = Except.ok () →
       Portal.firstProbe (Portal.macBody e).1 =
           some Portal.Ev.probeLoggedIn ∧
       (e.loggedIn = Except.ok true →
          Portal.Ev.probeForm ∉ (Portal.macBody e).1 ∧
          Portal.Ev.doLogout ∈ (Portal.macBody e).1 ∧
          (∀ b, e.logoutA = Except.ok b →
             Portal.Ev.openFresh ∈ (Portal.macBody e).1)) ∧
       (e.loggedIn = Except.ok false →
          Portal.Ev.probeForm ∈ (Portal.macBody e).1 ∧
          (e.formPresent = Except.ok false →
             Portal.Ev.openFresh ∈ (Portal.macBody e).1 ∧
             (e.freshB = Except.ok () → e.waitFormB = Except.ok false →
                Portal.Ev.doLogout ∈ (Portal.macBody e).1)))) ∧
    (∀ e : Portal.WinEnv, e.setTimeout = Except.ok () →
       e.navigate = Except.ok () →
       Portal.firstProbe (Portal.winBody e).1 = some Portal.Ev.probeForm ∧
       (e.formPresent = Except.ok true →
          Portal.Ev.probeLoggedIn ∉ (Portal.winBody e).1) ∧
       (e.formPresent = Except.ok false →
          Portal.Ev.probeLoggedIn ∈ (Portal.winBody e).1)) := by
  constructor
  · intro e hT hN
    refine ⟨?_, ?_, ?_⟩
    · unfold Portal.macBody
      rw [hT, hN]
      simp [Portal.firstProbe, List.find?, Portal.isProbeEv]
    · intro hL
      refine ⟨?_, ?_, ?_⟩
      · intro hmem
        unfold Portal.macBody at hmem
        rw [hT, hN, hL] at hmem
        simp at hmem
        cases hA : e.logoutA with
        | error u => rw [hA] at hmem; simp at hmem
        | ok bA =>
          rw [hA] at hmem
          simp at hmem
          cases hF : e.freshA with
          | error u => rw [hF] at hmem; simp at hmem
          | ok uF =>
            rw [hF] at hmem
            simp at hmem
            cases hW : e.waitFormA with
            | error u => rw [hW] at hmem; simp at hmem
            | ok bW =>
              rw [hW] at hmem
              simp at hmem
              exact not_mem_macFillPhase e _ (by decide) (by decide)
                (by decide) (by decide) (by decide)
                (fun s h => Portal.Ev.noConfusion h) hmem.2
      · unfold Portal.macBody
        rw [hT, hN, hL]
        simp
      · intro b hLA
        unfold Portal.macBody
        rw [hT, hN, hL, hLA]
        simp
    · intro hL
      refine ⟨?_, ?_⟩
      · unfold Portal.macBody
        rw [hT, hN, hL]
        simp
      · intro hFP
        refine ⟨?_, ?_⟩
        · unfold Portal.macBody
          rw [hT, hN, hL, hFP]
          simp
        · intro hFB hWB
          unfold Portal.macBody
          rw [hT, hN, hL, hFP, hFB, hWB]
          simp
  · intro e hT hN
    refine ⟨?_, ?_, ?_⟩
    · unfold Portal.winBody
      rw [hT, hN]
      simp [Portal.firstProbe, List.find?, Portal.isProbeEv]
    · intro hFP hmem
      unfold Portal.winBody at hmem
      rw [hT, hN, hFP] at hmem
      simp at hmem
      exact not_mem_winFillPhase e _ (by decide) (by decide) (by decide)
        (by decide) (by decide) (fun s h => Portal.Ev.noConfusion h) hmem
    · intro hFP
      unfold Portal.winBody
      rw [hT, hN, hFP]
      simp

/-- C3 witness: the probe-order theorem applied to concrete happy-path
environments of both variants. -/
theorem c3_witness :
    Portal.firstProbe (Portal.macBody
      ⟨true, true, .ok (), .ok (), .ok true, .ok true, .ok (), .ok true,
        .ok true, .ok (), .ok true, .ok true, .ok (), .ok true, .ok true,
        .ok true, .ok true, [true]⟩).1 = some Portal.Ev.probeLoggedIn ∧
    Portal.firstProbe (Portal.winBody
      ⟨true, true, .ok (), .ok (), .ok true, .ok true, .ok true, .ok (),
        .ok true, .ok true, .ok (), .ok true, .ok true, .ok true, .ok true,
        [true]⟩).1 = some Portal.Ev.probeForm :=
  ⟨(c3_probe_order.1
      ⟨true, true, .ok (), .ok (), .ok true, .ok true, .ok (), .ok true,
        .ok true, .ok (), .ok true, .ok true, .ok (), .ok true, .ok true,
        .ok true, .ok true, [true]⟩ rfl rfl).1,
   (c3_probe_order.2
      ⟨true, true, .ok (), .ok (), .ok true, .ok true, .ok true, .ok (),
        .ok true, .ok true, .ok (), .ok true, .ok true, .ok true, .ok true,
        [true]⟩ rfl rfl).1⟩

/-- C4 counterexample: with submission succeeded and every connectivity
poll negative, the window between the submission log and the session
close contains no log event at all — no UnrecoveredConnectivity outcome
is reported; when a poll succeeds the recovery message appears there. -/
theorem c4_counterexample :
    Portal.logsAfterSubmit (Portal.handle_portal_login_win
      ⟨true, true, .ok (), .ok (), .ok true, .ok true, .ok true, .ok (),
        .ok true, .ok true, .ok (), .ok true, .ok true, .ok true, .ok true,
        [false, false]⟩).1 = [] ∧
    Portal.logsAfterSubmit (Portal.handle_portal_login_win
      ⟨true, true, .ok (), .ok (), .ok true, .ok true, .ok true, .ok (),
        .ok true, .ok true, .ok (), .ok true, .ok true, .ok true, .ok true,
        [false, true]⟩).1 = [Portal.Ev.logRecovered] :=
  ⟨rfl, rfl⟩

/-- C4 (amended): on every run of either variant that reaches submission,
the only log the polling window can leave between the submission log and
the session close is the recovery message; when the window is exhausted
without connectivity returning, nothing is logged — the
UnrecoveredConnectivity outcome leaves no log record. -/
theorem c4_poll_exhaustion_silent :
    (∀ polls : List Bool, (∀ b ∈ polls, b = false) →
       Portal.pollEvents polls = []) ∧
    (∀ e : Portal.WinEnv, e.haveCreds = true → e.createOk = true →
       e.setTimeout = Except.ok () → e.navigate = Except.ok () →
       e.formPresent = Except.ok true → e.fillUser = Except.ok true →
       e.fillPass = Except.ok true → e.clickLogin = Except.ok true →
       Portal.logsAfterSubmit (Portal.handle_portal_login_win e).1 =
         Portal.pollEvents e.polls) ∧
    (∀ e : Portal.MacEnv, e.haveCreds = true → e.createOk = true →
       e.setTimeout = Except.ok () → e.navigate = Except.ok () →
       e.loggedIn = Except.ok false → e.formPresent = Except.ok true →
       e.fillUser = Except.ok true → e.fillPass = Except.ok true →
       e.clickLogin = Except.ok true →
       Portal.logsAfterSubmit (Portal.handle_portal_login_mac e).1 =
         Portal.pollEvents e.polls) := by
  refine ⟨?_, ?_, ?_⟩
  · intro polls hall
    induction polls with
    | nil => rfl
    | cons b rest ih =>
      rw [Portal.pollEvents]
      have hb : b = false := hall b (List.mem_cons_self b rest)
      rw [hb]
      simp only [Bool.false_eq_true, if_false]
      exact ih (fun x hx => hall x (List.mem_cons_of_mem b hx))
  · intro e hC hK hT hN hFP hU hP hCl
    unfold Portal.handle_portal_login_win Portal.winBody Portal.winFillPhase
    rw [hC, hK, hT, hN, hFP, hU, hP, hCl]
    rcases pollEvents_cases e.polls with hp | hp <;>
      simp [hp, Portal.logsAfterSubmit, List.dropWhile, List.takeWhile]
  · intro e hC hK hT hN hL hFP hU hP hCl
    unfold Portal.handle_portal_login_mac Portal.macBody Portal.macFillPhase
    rw [hC, hK, hT, hN, hL, hFP, hU, hP, hCl]
    rcases pollEvents_cases e.polls with hp | hp <;>
      simp [hp, Portal.logsAfterSubmit, List.dropWhile, List.takeWhile]

/-- C4 witness: the amended theorem applied to a concrete run whose two
polls both fail: the post-submission log window is empty. -/
theorem c4_witness :
    Portal.logsAfterSubmit (Portal.handle_portal_login_win
      ⟨true, true, .ok (), .ok (), .ok true, .ok true, .ok true, .ok (),
        .ok true, .ok true, .ok (), .ok true, .ok true, .ok true, .ok true,
        [false, false]⟩).1 = Portal.pollEvents [false, false] ∧
    Portal.pollEvents [false, false] = [] :=
  ⟨c4_poll_exhaustion_silent.2.1
    ⟨true, true, .ok (), .ok (), .ok true, .ok true, .ok true, .ok (),
      .ok true, .ok true, .ok (), .ok true, .ok true, .ok true, .ok true,
      [false, false]⟩ rfl rfl rfl rfl rfl rfl rfl rfl,
   c4_poll_exhaustion_silent.1 [false, false] (by decide)⟩
